import Mathlib

/-!
Verification development for the dataworker repository
(`dataservice`: a recursive, concurrent crawling engine).

The data model is embedded from `src/dataservice/models.py`, the HTTP
client from `src/dataservice/clients.py`.  The worker/scheduler module
(`dataservice/worker.py`) and the exception module
(`dataservice/exceptions.py`) are referenced by the repository's tests
but are not present in the source tree; the parts of their behaviour
needed here are modelled from the specification (each such definition
carries a `Modelled from the spec:` doc comment).

Machine conventions: Python dicts of the request/response payloads are
embedded as association lists of string pairs; Python truthiness of an
optional dict (`not self.form_data`) is the `truthy` predicate below
(`None` and `{}` are falsy); raised exceptions are `Except` errors.
-/

/-- Python dict payloads (headers, params, form data, json data) as
association lists of string pairs. -/
abbrev Dict := List (String × String)

/-- Python truthiness of an `Optional[dict]` value: `None` and the empty
dict are falsy, any non-empty dict is truthy. -/
def truthy : Option Dict → Bool
  | none => false
  | some d => !d.isEmpty

/-- `method: Literal["GET", "POST"]` from `models.py`. -/
inductive Method where
  | GET
  | POST
deriving DecidableEq

/-- `content_type: Literal["text", "json"]` from `models.py`. -/
inductive ContentType where
  | text
  | json
deriving DecidableEq

/-- The string a `Method` renders to. -/
def methodStr : Method → String
  | Method.GET => "GET"
  | Method.POST => "POST"

/-- The `Request` model of `src/dataservice/models.py` (lines 20-46).
The `url` is the already-validated URL string (`Annotated[HttpUrl,
AfterValidator(str)]`); the `callback` callable and the `client` object
are opaque references, embedded as an identifier and an optional name. -/
structure Request where
  url : String
  callback : Nat
  method : Method := Method.GET
  content_type : ContentType := ContentType.text
  headers : Option Dict := none
  params : Option Dict := none
  form_data : Option Dict := none
  json_data : Option Dict := none
  client : Option String := none
deriving DecidableEq

/-- The `@model_validator(mode="after") def validate` of `Request`
(`models.py` lines 36-46): three guarded `raise ValueError` checks, then
the request itself. -/
def Request.validate (r : Request) : Except String Request :=
  if r.method = Method.POST ∧ truthy r.form_data = false ∧ truthy r.json_data = false then
    Except.error "POST requests require either form data or json data."
  else if r.method = Method.GET ∧ (truthy r.form_data = true ∨ truthy r.json_data = true) then
    Except.error "GET requests cannot have form data or json data."
  else if r.content_type = ContentType.json ∧ truthy r.json_data = false ∧ truthy r.form_data = false then
    Except.error "Content type is json but no form data or json data provided."
  else
    Except.ok r

/-- `StrOrDict = str | dict` from `models.py`: the shape of a Response
payload. -/
inductive StrOrDict where
  | str (s : String)
  | dict (d : Dict)
deriving DecidableEq

/-- A parsed `BeautifulSoup(markup, features)` document, embedded as the
pair of its construction arguments. -/
structure BeautifulSoup where
  markup : String
  features : String
deriving DecidableEq

/-- The `Response` model of `src/dataservice/models.py` (lines 49-57):
a back-reference to the originating `Request`, the raw payload
(`data: StrOrDict`), and the private parse cache `__soup` (initially
`None`).  The source model declares no other field. -/
structure Response where
  request : Request
  data : StrOrDict
  soup_cache : Option BeautifulSoup := none
deriving DecidableEq

/-- `Response.__get_soup` (`models.py` lines 59-62): raises
`Warning("Cannot create BeautifulSoup from dict.")` when the payload is
a dict, otherwise builds `BeautifulSoup(self.data, "html5lib")`. -/
def Response.get_soup (r : Response) : Except String BeautifulSoup :=
  match r.data with
  | StrOrDict.dict _ => Except.error "Cannot create BeautifulSoup from dict."
  | StrOrDict.str s => Except.ok ⟨s, "html5lib"⟩

/-- The `soup` property (`models.py` lines 64-68): on a cache miss it
computes `__get_soup` and stores it; on a hit it returns the cached
object unchanged.  State passing makes the mutation of `__soup`
explicit: the returned `Response` is the post-access state. -/
def Response.soup (r : Response) : Except String (BeautifulSoup × Response) :=
  match r.soup_cache with
  | some s => Except.ok (s, r)
  | none =>
    match r.get_soup with
    | Except.error e => Except.error e
    | Except.ok s => Except.ok (s, { r with soup_cache := some s })

/-! ## HTTP client (`src/dataservice/clients.py`) -/

/-- What the transport library (httpx) did for the one call
`HttpXClient.make_request` issues: either it produced a response with a
status code and body, or it raised a timeout, or it raised some other
transport error. -/
inductive FetchOutcome where
  | success (status : Nat) (text : String) (jsonBody : Dict)
  | timeoutErr
  | transportErr (msg : String)
deriving DecidableEq

/-- The raw exceptions of the httpx transport library:
`httpx.HTTPStatusError` (raised by `response.raise_for_status()` on a
4xx/5xx status), `httpx.TimeoutException`, and the generic
`httpx.HTTPError`. -/
inductive HttpxException where
  | httpStatusError (status : Nat)
  | timeoutException
  | httpError (msg : String)
deriving DecidableEq

/-- `HttpXClient.make_request` (`clients.py` lines 22-43), over an
abstract transport outcome.  The source has no `try`/`except`: a
timeout or transport error raised by the httpx call propagates as is,
`response.raise_for_status()` raises the raw `httpx.HTTPStatusError`
for any status >= 400, and on success the payload is `response.text`
or `response.json()` according to the request's `content_type`. -/
def make_request (transport : FetchOutcome) (request : Request) : Except HttpxException Response :=
  match transport with
  | FetchOutcome.timeoutErr => Except.error HttpxException.timeoutException
  | FetchOutcome.transportErr m => Except.error (HttpxException.httpError m)
  | FetchOutcome.success status text jsonBody =>
    if 400 ≤ status then
      Except.error (HttpxException.httpStatusError status)
    else
      match request.content_type with
      | ContentType.text => Except.ok ⟨request, StrOrDict.str text, none⟩
      | ContentType.json => Except.ok ⟨request, StrOrDict.dict jsonBody, none⟩

/-! ## Retry wrapper (spec §4.3)

`dataservice/worker.py` is not in the source tree (only its tests are),
so the fetch wrapper is modelled from the specification. -/

/-- The per-attempt classification of a fetch: success carries the
Response, a Retryable failure carries the failed Response last obtained
from the attempt, Timeout and Fatal are surfaced as raised failures. -/
inductive FetchResult (α : Type) where
  | ok (r : α)
  | retryableFail (r : α)
  | timeoutFail
  | fatalFail
deriving DecidableEq

/-- The failures the retry wrapper can surface (raise) to its caller.
`internal` marks the out-of-fuel branch of the bounded retry loop,
unreachable when the loop is entered with a positive attempt budget. -/
inductive RetryError where
  | timeout
  | fatal
  | internal
deriving DecidableEq

/-- Modelled from the spec: the bounded retry loop of
`handle_request` (§4.3).  `fetch i` is the classified outcome of the
i-th sequential attempt; `attempt` is the index of the attempt about to
run and `remaining` the number of attempts still allowed.  A success
returns immediately with the attempt count; a Retryable failure retries
while budget remains and on exhaustion returns the last-obtained failed
Response instead of raising; Timeout and Fatal surface immediately. -/
def retry_from {α : Type} (fetch : Nat → FetchResult α) : Nat → Nat → Except RetryError (α × Nat)
  | _, 0 => Except.error RetryError.internal
  | attempt, remaining + 1 =>
    match fetch attempt with
    | FetchResult.ok r => Except.ok (r, attempt)
    | FetchResult.timeoutFail => Except.error RetryError.timeout
    | FetchResult.fatalFail => Except.error RetryError.fatal
    | FetchResult.retryableFail r =>
      if remaining = 0 then Except.ok (r, attempt)
      else retry_from fetch (attempt + 1) remaining

/-- Modelled from the spec: `handle_request(request) -> Response`
(§4.3), wrapping the transport with the fixed retry ceiling of 3 total
attempts; returns the Response together with the number of attempts
performed. -/
def handle_request {α : Type} (fetch : Nat → FetchResult α) : Except RetryError (α × Nat) :=
  retry_from fetch 1 3

/-! ## Scheduler (spec §4.1, §4.2)

`dataservice/worker.py` is not in the source tree (only its tests are),
so the scheduler is modelled from the specification: seeds admitted up
front subject to dedup, workers pull Work Items, a pulled Request is
fetched and its callback's yield is routed (Request through the
deduplication gate into the work queue, Data Record into the data
queue), and a pulled item of any other shape is a fatal input error
naming the offending type. -/

/-- A Data Record is an opaque payload; its carrier here is `String`. -/
abbrev DataRecord := String

/-- The Work Item union of the spec (§2): a Fetch Request, a Data
Record, or — a programming error — any other value, carried here by the
name of its Python type (e.g. the string rendering of `type(1)`). -/
inductive WorkItem where
  | request (r : Request)
  | record (d : DataRecord)
  | other (tyName : String)
deriving DecidableEq

/-- The callback environment: callback reference (the `callback` field
of a Request) to the finite sequence of Work Items that callback yields
for the fetched Response. -/
abbrev CallbackEnv := Nat → List WorkItem

/-- The recognized scheduler options (spec §4.1). -/
structure Config where
  max_workers : Nat
  deduplication : Bool
  deduplication_keys : List String
deriving DecidableEq

/-- Modelled from the spec: the deduplication fingerprint (§4.2), a
deterministic function of the request fields named in
`deduplication_keys`. -/
def fingerprint (keys : List String) (r : Request) : String :=
  String.intercalate " " (keys.map fun k =>
    if k = "url" then r.url
    else if k = "method" then methodStr r.method
    else if k = "params" then toString (repr r.params)
    else if k = "form_data" then toString (repr r.form_data)
    else if k = "json_data" then toString (repr r.json_data)
    else "")

/-- Modelled from the spec: the Deduplicator's admission gate (§4.2).
With deduplication disabled every request is admitted and no state
grows; with it enabled a request is admitted exactly when its
fingerprint has not been seen, and the fingerprint is recorded. -/
def dedupAllow (cfg : Config) (seen : List String) (r : Request) : Bool × List String :=
  if cfg.deduplication = false then (true, seen)
  else
    let key := fingerprint cfg.deduplication_keys r
    if key ∈ seen then (false, seen) else (true, key :: seen)

/-- The scheduler's observable state: pending work queue, accumulated
data queue, recorded dedup fingerprints, and the number of transport
(fetch) invocations made so far. -/
structure RunState where
  work_queue : List WorkItem
  data_queue : List DataRecord
  seen : List String
  fetches : Nat
deriving DecidableEq

/-- The error taxonomy surfaced by the scheduler (spec §7): an Input
Error is fatal to the item or run and is reported to the caller. -/
inductive RunError where
  | inputError (msg : String)
deriving DecidableEq

/-- Modelled from the spec: routing of one item yielded by a callback
(§4.1): a Request goes through the deduplication gate into the work
queue, a Data Record is appended unconditionally to the data queue, and
any other value is put on the work queue as is (where pulling it later
is the programming error of §2). -/
def routeItem (cfg : Config) (st : RunState) (item : WorkItem) : RunState :=
  match item with
  | WorkItem.record d => { st with data_queue := st.data_queue ++ [d] }
  | WorkItem.request r =>
    let gate := dedupAllow cfg st.seen r
    { st with
      seen := gate.2,
      work_queue := if gate.1 then st.work_queue ++ [WorkItem.request r] else st.work_queue }
  | WorkItem.other ty => { st with work_queue := st.work_queue ++ [WorkItem.other ty] }

/-- Modelled from the spec: processing of one pulled Work Item (§4.1).
A Request is fetched (one transport invocation) and its callback's
yield is routed; a Data Record is appended to the data queue; any other
shape fails with the Input Error naming the offending type. -/
def handle_queue_item (env : CallbackEnv) (cfg : Config) (st : RunState) (item : WorkItem) :
    Except RunError RunState :=
  match item with
  | WorkItem.request r =>
    Except.ok ((env r.callback).foldl (routeItem cfg) { st with fetches := st.fetches + 1 })
  | WorkItem.record d => Except.ok { st with data_queue := st.data_queue ++ [d] }
  | WorkItem.other ty => Except.error (RunError.inputError ("Unknown item type " ++ ty))

/-- Modelled from the spec: the worker loop (§4.1), sequentialized and
bounded by fuel.  It pulls the next Work Item until the queue is empty
(quiescence) or an error is surfaced; the returned pair is the final
state together with the surfaced error, if any. -/
def run_loop (env : CallbackEnv) (cfg : Config) : Nat → RunState → RunState × Option RunError
  | 0, st => (st, none)
  | fuel + 1, st =>
    match st.work_queue with
    | [] => (st, none)
    | item :: rest =>
      match handle_queue_item env cfg { st with work_queue := rest } item with
      | Except.error e => ({ st with work_queue := rest }, some e)
      | Except.ok st1 => run_loop env cfg fuel st1

/-- The fuel bound of the sequentialized worker loop. -/
def run_fuel : Nat := 1000

/-- Modelled from the spec: up-front admission of the seed set into the
work queue, subject to dedup (§4.1). -/
def seedQueue (cfg : Config) (seeds : List Request) : List WorkItem × List String :=
  seeds.foldl
    (fun acc r =>
      let gate := dedupAllow cfg acc.2 r
      (if gate.1 then acc.1 ++ [WorkItem.request r] else acc.1, gate.2))
    ([], [])

/-- Modelled from the spec: `run(seed_requests, config)` (§4.1, §6):
fails fast with the Input Error "no requests to process" if the seed
set is empty — before any fetch occurs — and otherwise admits the seeds
and runs the worker loop to quiescence. -/
def run (env : CallbackEnv) (seeds : List Request) (cfg : Config) :
    RunState × Option RunError :=
  if seeds.isEmpty then
    (⟨[], [], [], 0⟩, some (RunError.inputError "no requests to process"))
  else
    let seeded := seedQueue cfg seeds
    run_loop env cfg run_fuel ⟨seeded.1, [], seeded.2, 0⟩

/-! ## Unique key derivation (spec §3, §4.4)

`Request.unique_key` is referenced by the repository's tests
(`test_request_unique_key`) but absent from `src/dataservice/models.py`,
so it is modelled from the specification. -/

/-- A single quote character, used by the Python `repr` rendering of a
dict. -/
def sglq : String := String.singleton (Char.ofNat 39)

/-- The Python `repr` rendering of a string-valued dict, e.g.
`\x7b'key1': 'value1'\x7d`. -/
def dictRepr (d : Dict) : String :=
  "\x7b" ++
    String.intercalate ", " (d.map fun p => sglq ++ p.1 ++ sglq ++ ": " ++ sglq ++ p.2 ++ sglq) ++
    "\x7d"

/-- Modelled from the spec: `Request.unique_key` (§3, §4.4), a pure
derivation from the method, the normalized URL, and whichever of
params/form-body/json-body is present, in the format
`"GET https://x/ \x7bparams\x7d"`; the payload part is omitted when no
payload is present. -/
def Request.unique_key (r : Request) : String :=
  let payload : Option Dict :=
    if truthy r.params then r.params
    else if truthy r.form_data then r.form_data
    else if truthy r.json_data then r.json_data
    else none
  methodStr r.method ++ " " ++ r.url ++
    (match payload with
     | some d => " " ++ dictRepr d
     | none => "")

/-! ## Concrete values used by the witnesses -/

/-- A plain GET request as the tests build one
(`Request(url="http://example.com", callback=..., client=ToyClient())`). -/
def reqGet : Request :=
  ⟨"http://example.com/", 0, Method.GET, ContentType.text, none, none, none, none, none⟩

/-- A POST request with json content type and a json body. -/
def reqPostJson : Request :=
  ⟨"http://example.com/", 0, Method.POST, ContentType.json, none, none, none,
    some [("key", "value")], none⟩

/-- A GET request with query params, as in `test_request_unique_key`. -/
def reqKeyA : Request :=
  ⟨"https://example.com/", 0, Method.GET, ContentType.text, none,
    some [("key1", "value1")], none, none, none⟩

/-- The same request fields as `reqKeyA` on the key-relevant fields, but
a different callback, different headers and a different client. -/
def reqKeyB : Request :=
  ⟨"https://example.com/", 7, Method.GET, ContentType.text,
    some [("User-Agent", "pytest")], some [("key1", "value1")], none, none,
    some "ToyClient"⟩

/-- A transport that fails with a Retryable condition on every attempt;
the failed response of attempt `i` is the value `i`. -/
def fetchAllRetryable : Nat → FetchResult Nat := fun i => FetchResult.retryableFail i

/-- A callback environment in which every callback yields exactly one
Data Record, like the `lambda x: {"parsed": "data"}` callback of the
tests. -/
def envSingleRecord : CallbackEnv := fun _ => [WorkItem.record "parsed data"]

/-- A Response whose parse cache is already filled. -/
def soupCachedResp : Response := ⟨reqGet, StrOrDict.str "x", some ⟨"x", "html5lib"⟩⟩

/-! ## Helper lemmas on the worker loop -/

/-- Quiescence: with an empty work queue the loop stops at once,
whatever the fuel. -/
theorem run_loop_empty_queue (env : CallbackEnv) (cfg : Config) (fuel : Nat)
    (dq : List DataRecord) (seen : List String) (f : Nat) :
    run_loop env cfg fuel ⟨[], dq, seen, f⟩ = (⟨[], dq, seen, f⟩, none) := by
  cases fuel <;> rfl

/-- One step of the worker loop on a non-empty queue. -/
theorem run_loop_step (env : CallbackEnv) (cfg : Config) (fuel : Nat) (item : WorkItem)
    (rest : List WorkItem) (dq : List DataRecord) (seen : List String) (f : Nat) :
    run_loop env cfg (fuel + 1) ⟨item :: rest, dq, seen, f⟩ =
      match handle_queue_item env cfg ⟨rest, dq, seen, f⟩ item with
      | Except.error e => (⟨rest, dq, seen, f⟩, some e)
      | Except.ok st1 => run_loop env cfg fuel st1 := rfl

/-! ## Claim theorems -/

/-- Claim C1 (code-bug evidence).  The claim says `make_request`
translates transport failures into the Retryable/Fatal/Timeout taxonomy
and that no raw transport-library exception escapes.  The source
(`clients.py` lines 22-43) has no exception handling at all: evaluated
at an HTTP 500, 429 or 404 status, at a network timeout, and at a
generic transport error, `make_request` propagates the raw httpx
exception unchanged. -/
theorem c1_raw_httpx_exception_escapes :
    make_request (FetchOutcome.success 500 "" []) reqGet
        = Except.error (HttpxException.httpStatusError 500)
  ∧ make_request (FetchOutcome.success 429 "" []) reqGet
        = Except.error (HttpxException.httpStatusError 429)
  ∧ make_request (FetchOutcome.success 404 "" []) reqGet
        = Except.error (HttpxException.httpStatusError 404)
  ∧ make_request FetchOutcome.timeoutErr reqGet
        = Except.error HttpxException.timeoutException
  ∧ make_request (FetchOutcome.transportErr "Error") reqGet
        = Except.error (HttpxException.httpError "Error") :=
  ⟨rfl, rfl, rfl, rfl, rfl⟩

/-- Claim C4: running the scheduler on an empty seed set fails with the
Input Error "no requests to process"; the final state shows zero
transport calls and an empty data queue. -/
theorem c4_empty_seed_set (env : CallbackEnv) (cfg : Config) :
    run env [] cfg = (⟨[], [], [], 0⟩, some (RunError.inputError "no requests to process")) :=
  rfl

/-- Claim C6: a value pulled from the work queue that is neither a
Request nor a Data Record fails with an Input Error naming the
offending type, and the worker loop surfaces that error to the caller
instead of silently ignoring it. -/
theorem c6_unknown_item_type (env : CallbackEnv) (cfg : Config) (ty : String)
    (rest : List WorkItem) (dq : List DataRecord) (seen : List String) (f fuel : Nat) :
    handle_queue_item env cfg ⟨rest, dq, seen, f⟩ (WorkItem.other ty)
        = Except.error (RunError.inputError ("Unknown item type " ++ ty))
  ∧ (run_loop env cfg (fuel + 1) ⟨WorkItem.other ty :: rest, dq, seen, f⟩).2
        = some (RunError.inputError ("Unknown item type " ++ ty)) :=
  ⟨rfl, rfl⟩

/-- Claim C9 (code-bug evidence).  The claim says every Response
carries the originating Request, the raw payload, a status code and
headers.  The source Response model (`models.py` lines 49-57) is fully
determined by its `request` and `data` fields (plus the private parse
cache): two Responses agreeing on those are the same Response, so the
model carries no status code and no headers. -/
theorem c9_response_carries_only_request_and_data (r1 r2 : Response)
    (hreq : r1.request = r2.request) (hdata : r1.data = r2.data)
    (hcache : r1.soup_cache = r2.soup_cache) : r1 = r2 := by
  cases r1
  cases r2
  simp_all

/-- Witness for C9 at a concrete Response. -/
theorem c9_response_carries_only_request_and_data_witness :
    (⟨reqGet, StrOrDict.str "x", none⟩ : Response) = ⟨reqGet, StrOrDict.str "x", none⟩ :=
  c9_response_carries_only_request_and_data _ _ rfl rfl rfl

/-- Claim C2: when every attempt fails with a Retryable condition,
`handle_request` makes exactly 3 total sequential attempts and returns
the last-obtained failed Response instead of raising; when an attempt
succeeds before the ceiling (after only Retryable failures), the
successful Response is returned immediately after that attempt. -/
theorem c2_handle_request_retry_ceiling {α : Type} (fetch : Nat → FetchResult α)
    (r1 r2 r3 : α) :
    (fetch 1 = FetchResult.retryableFail r1 → fetch 2 = FetchResult.retryableFail r2 →
      fetch 3 = FetchResult.retryableFail r3 → handle_request fetch = Except.ok (r3, 3))
  ∧ (∀ k r, 1 ≤ k → k ≤ 3 →
      (∀ i, 1 ≤ i → i < k → ∃ ri, fetch i = FetchResult.retryableFail ri) →
      fetch k = FetchResult.ok r → handle_request fetch = Except.ok (r, k)) := by
  constructor
  · intro h1 h2 h3
    simp [handle_request, retry_from, h1, h2, h3]
  · intro k r hk1 hk3 hprev hok
    interval_cases k
    · simp [handle_request, retry_from, hok]
    · obtain ⟨s1, h1⟩ := hprev 1 (by omega) (by omega)
      simp [handle_request, retry_from, h1, hok]
    · obtain ⟨s1, h1⟩ := hprev 1 (by omega) (by omega)
      obtain ⟨s2, h2⟩ := hprev 2 (by omega) (by omega)
      simp [handle_request, retry_from, h1, h2, hok]

/-- Witness for C2: a transport failing with a Retryable condition on
every attempt yields the attempt-3 failed response after 3 attempts. -/
theorem c2_handle_request_retry_ceiling_witness :
    handle_request fetchAllRetryable = Except.ok (3, 3) :=
  (c2_handle_request_retry_ceiling fetchAllRetryable 1 2 3).1 rfl rfl rfl

/-- Claim C3: `Request.validate` enforces the body invariant: a POST
with neither form body nor json body is rejected, a GET carrying a form
body or a json body is rejected, a json content type with no body
present is rejected, and every request satisfying all three conditions
passes validation. -/
theorem c3_request_validation (r : Request) :
    (r.method = Method.POST → truthy r.form_data = false → truthy r.json_data = false →
      r.validate = Except.error "POST requests require either form data or json data.")
  ∧ (r.method = Method.GET → (truthy r.form_data = true ∨ truthy r.json_data = true) →
      r.validate = Except.error "GET requests cannot have form data or json data.")
  ∧ (r.content_type = ContentType.json → truthy r.json_data = false → truthy r.form_data = false →
      ∃ e, r.validate = Except.error e)
  ∧ ((r.method = Method.POST → truthy r.form_data = true ∨ truthy r.json_data = true) →
     (r.method = Method.GET → truthy r.form_data = false ∧ truthy r.json_data = false) →
     (r.content_type = ContentType.json → truthy r.form_data = true ∨ truthy r.json_data = true) →
      r.validate = Except.ok r) := by
  refine ⟨?_, ?_, ?_, ?_⟩
  · intro hm hf hj
    simp [Request.validate, hm, hf, hj]
  · intro hm hb
    rcases hb with hf | hj
    · simp [Request.validate, hm, hf]
    · simp [Request.validate, hm, hj]
  · intro hct hj hf
    cases hm : r.method
    · exact ⟨"Content type is json but no form data or json data provided.",
        by simp [Request.validate, hm, hct, hj, hf]⟩
    · exact ⟨"POST requests require either form data or json data.",
        by simp [Request.validate, hm, hct, hj, hf]⟩
  · intro h1 h2 h3
    cases hm : r.method <;> cases hct : r.content_type <;>
      cases hfd : truthy r.form_data <;> cases hjd : truthy r.json_data <;>
      simp_all [Request.validate]

/-- Witness for C3: a GET request with no body and text content type
passes validation. -/
theorem c3_request_validation_witness :
    Request.validate reqGet = Except.ok reqGet :=
  (c3_request_validation reqGet).2.2.2 (by decide) (by decide) (by decide)

/-- Claim C10: no successfully validated Request combines method GET
with content type json: the GET rule forbids a body while the json rule
demands one, so every validated Request with content type json has
method POST. -/
theorem c10_json_implies_post (r r0 : Request) (h : r.validate = Except.ok r0) :
    ¬ (r.method = Method.GET ∧ r.content_type = ContentType.json)
  ∧ (r.content_type = ContentType.json → r.method = Method.POST) := by
  cases hm : r.method <;> cases hct : r.content_type <;>
    cases hfd : truthy r.form_data <;> cases hjd : truthy r.json_data <;>
    simp_all [Request.validate]

/-- Witness for C10: a validated POST request with json content type. -/
theorem c10_json_implies_post_witness :
    ¬ (reqPostJson.method = Method.GET ∧ reqPostJson.content_type = ContentType.json)
  ∧ (reqPostJson.content_type = ContentType.json → reqPostJson.method = Method.POST) :=
  c10_json_implies_post reqPostJson reqPostJson (by rfl)

/-- Claim C5: with deduplication enabled and key fields `url`,
submitting two structurally-identical Requests yields exactly one fetch
invocation (the duplicate is dropped at admission, not enqueued); with
deduplication disabled the same two Requests yield exactly two fetch
invocations.  `hc` states the request's callback yields a single Data
Record, as in the test's `lambda x: {"parsed": "data"}`. -/
theorem c5_deduplication (env : CallbackEnv) (r : Request) (d : DataRecord)
    (hc : env r.callback = [WorkItem.record d]) :
    (run env [r, r] ⟨1, true, ["url"]⟩).1.fetches = 1
  ∧ (run env [r, r] ⟨1, false, ["url"]⟩).1.fetches = 2 := by
  have hstep : ∀ (cfg : Config) (fuel : Nat) (q : List WorkItem) (dq : List DataRecord)
      (seen : List String) (f : Nat),
      run_loop env cfg (fuel + 1) ⟨WorkItem.request r :: q, dq, seen, f⟩ =
        run_loop env cfg fuel ⟨q, dq ++ [d], seen, f + 1⟩ := by
    intro cfg fuel q dq seen f
    rw [run_loop_step]
    simp [handle_queue_item, hc, routeItem]
  constructor
  · have hs1 : seedQueue ⟨1, true, ["url"]⟩ [r, r] =
        ([WorkItem.request r], [fingerprint ["url"] r]) := by
      simp [seedQueue, dedupAllow]
    have hrun : run env [r, r] ⟨1, true, ["url"]⟩ =
        run_loop env ⟨1, true, ["url"]⟩ run_fuel
          ⟨[WorkItem.request r], [], [fingerprint ["url"] r], 0⟩ := by
      simp [run, hs1]
    rw [hrun, show run_fuel = 999 + 1 from rfl, hstep, run_loop_empty_queue]
  · have hs2 : seedQueue ⟨1, false, ["url"]⟩ [r, r] =
        ([WorkItem.request r, WorkItem.request r], []) := by
      simp [seedQueue, dedupAllow]
    have hrun : run env [r, r] ⟨1, false, ["url"]⟩ =
        run_loop env ⟨1, false, ["url"]⟩ run_fuel
          ⟨[WorkItem.request r, WorkItem.request r], [], [], 0⟩ := by
      simp [run, hs2]
    rw [hrun, show run_fuel = 998 + 1 + 1 from rfl, hstep, hstep, run_loop_empty_queue]

/-- Witness for C5 with the single-record callback environment. -/
theorem c5_deduplication_witness :
    (run envSingleRecord [reqGet, reqGet] ⟨1, true, ["url"]⟩).1.fetches = 1
  ∧ (run envSingleRecord [reqGet, reqGet] ⟨1, false, ["url"]⟩).1.fetches = 2 :=
  c5_deduplication envSingleRecord reqGet "parsed data" rfl

/-- Claim C7: the unique key is a pure, deterministic derivation from
method, normalized URL and the present body/param payload: two Requests
equal on those fields get equal keys even when they differ on every
other field (callback, headers, client), and the key has the documented
`"GET https://x/ \x7bparams\x7d"` shape. -/
theorem c7_unique_key_deterministic (r1 r2 : Request)
    (hm : r1.method = r2.method) (hu : r1.url = r2.url) (hp : r1.params = r2.params)
    (hf : r1.form_data = r2.form_data) (hj : r1.json_data = r2.json_data) :
    r1.unique_key = r2.unique_key
  ∧ reqKeyA.unique_key = "GET https://example.com/ \x7b" ++ sglq ++ "key1" ++ sglq ++ ": "
      ++ sglq ++ "value1" ++ sglq ++ "\x7d" := by
  constructor
  · simp [Request.unique_key, hm, hu, hp, hf, hj]
  · rfl

/-- Witness for C7: two Requests equal on the key fields but differing
in callback, headers and client have the same unique key. -/
theorem c7_unique_key_deterministic_witness :
    reqKeyA.unique_key = reqKeyB.unique_key :=
  (c7_unique_key_deterministic reqKeyA reqKeyB rfl rfl rfl rfl rfl).1

/-- Claim C8: the `soup` view is computed at most once per Response —
a cached value is returned as is on every later access, and a first
successful access yields a post-state whose next access returns the
same object unchanged — and requesting it on a dict payload is a usage
error, not a value. -/
theorem c8_soup_lazy_cached (req req2 : Request) (d : Dict) (s : StrOrDict)
    (sp c : BeautifulSoup) (r1 : Response) :
    (Response.mk req (StrOrDict.dict d) none).soup
        = Except.error "Cannot create BeautifulSoup from dict."
  ∧ ((Response.mk req2 s none).soup = Except.ok (sp, r1) → r1.soup = Except.ok (sp, r1))
  ∧ (∀ (resp : Response), resp.soup_cache = some c → resp.soup = Except.ok (c, resp)) := by
  refine ⟨rfl, ?_, ?_⟩
  · intro h
    cases s with
    | dict d2 => simp [Response.soup, Response.get_soup] at h
    | str t =>
      simp [Response.soup, Response.get_soup] at h
      obtain ⟨hsp, hr⟩ := h
      subst hr
      simp [Response.soup, hsp]
  · intro resp h
    simp [Response.soup, h]

/-- Witness for C8: a Response whose cache holds the parse of "x"
returns that object again on access. -/
theorem c8_soup_lazy_cached_witness :
    soupCachedResp.soup = Except.ok (⟨"x", "html5lib"⟩, soupCachedResp) :=
  (c8_soup_lazy_cached reqGet reqGet [] (StrOrDict.str "x") ⟨"x", "html5lib"⟩
    ⟨"x", "html5lib"⟩ soupCachedResp).2.1 rfl
